import Mathlib

/-!
Verification of the cursor-pagination and entity-hydration core of
`TikTokApi/api/user.py` (class `User`).

The Python code is shallowly embedded:

* JSON values (the payloads exchanged with the transport) become the
  inductive type `JVal`; Python `None` is `JVal.vNull`.
* Python exceptions become the inductive type `PyError`; the `TypeError`
  raised by `User.info` when no identifier is set, the `KeyError` raised
  by `dict[key]`, the `AttributeError` raised by calling `.get`/`.keys`
  on a non-dict, and the library's `InvalidResponseException` are each a
  constructor.
* The mutable `User` object becomes the structure `UserState`, threaded
  explicitly; `info` returns the post-state even when it raises, since a
  Python exception does not roll back attribute assignments.
* The transport `make_request` is an oracle `responses : Nat → Option JVal`
  indexed by the number of requests issued so far; `none` models the
  transport returning `None`.
* The async generators `videos`, `liked`, `playlists` become fuel-indexed
  loops returning a `PagOutcome`: the raw items yielded (in order), the
  `count` parameter sent on each page fetch, the final fetch counter and
  how the loop ended.  Item factories (`parent.video`, `parent.playlist`)
  wrap raw payloads without transformation, so yielded items are recorded
  as the raw page entries.
-/

set_option linter.unusedVariables false

/-- A JSON value, as produced by the transport.  `vNull` models Python
`None`; objects are association lists with distinct keys. -/
inductive JVal : Type where
  | vNull : JVal
  | vBool : Bool → JVal
  | vInt : Int → JVal
  | vStr : String → JVal
  | vList : List JVal → JVal
  | vObj : List (String × JVal) → JVal

/-- The Python exceptions reachable in `user.py`. -/
inductive PyError : Type where
  | typeError : PyError
  | keyError : String → PyError
  | attributeError : PyError
  | invalidResponse : PyError
  deriving DecidableEq

/-- The spec's name (section 7) for the `TypeError` that `User.info` raises
when neither `username` nor `sec_uid` is usable. -/
def MissingIdentifierError : PyError := .typeError

/-- The spec's name for the library's `InvalidResponseException`. -/
def InvalidResponseError : PyError := .invalidResponse

/-- Python truthiness of a JSON value (`bool(v)`). -/
def JVal.truthy : JVal → Bool
  | .vNull => false
  | .vBool b => b
  | .vInt n => n != 0
  | .vStr s => s != ""
  | .vList xs => !xs.isEmpty
  | .vObj fs => !fs.isEmpty

/-- Key lookup in a JSON object's field list. -/
def jLookup (fs : List (String × JVal)) (k : String) : Option JVal :=
  match fs with
  | [] => none
  | (k2, v) :: rest => if k2 = k then some v else jLookup rest k

/-- Python `d.get(k, dflt)` once `d` is known to be a dict.  A key present
with value `None` returns `None`, not the default, exactly as in Python. -/
def jGetD (fs : List (String × JVal)) (k : String) (dflt : JVal) : JVal :=
  (jLookup fs k).getD dflt

/-- Python `d[k]` (`KeyError` when absent, `TypeError` on a non-dict
receiver of string subscripts as reached in this code). -/
def pyGetItem (v : JVal) (k : String) : Except PyError JVal :=
  match v with
  | .vObj fs =>
    match jLookup fs k with
    | some x => .ok x
    | none => .error (.keyError k)
  | _ => .error .typeError

/-- Python `k in v` for a string `k`: key test on dicts, substring test on
strings, element equality on lists, `TypeError` otherwise. -/
def pyContains (v : JVal) (k : String) : Except PyError Bool :=
  match v with
  | .vObj fs => .ok (jLookup fs k).isSome
  | .vStr s => .ok (decide (1 < (s.splitOn k).length))
  | .vList xs =>
    .ok (xs.any fun v2 =>
      match v2 with
      | .vStr s2 => s2 == k
      | _ => false)
  | _ => .error .typeError

/-- Python `for x in v`: lists iterate elements, strings iterate one-char
strings, dicts iterate keys; anything else raises `TypeError`. -/
def jIter : JVal → Except PyError (List JVal)
  | .vList xs => .ok xs
  | .vStr s => .ok (s.toList.map fun c => JVal.vStr (String.mk [c]))
  | .vObj fs => .ok (fs.map fun p => JVal.vStr p.1)
  | _ => .error .typeError

/-- The mutable state of a `User` object.  After `__init__` the three
identifier attributes are always assigned (possibly to `None` = `vNull`);
`as_dict` may still be unassigned (`none`). -/
structure UserState : Type where
  user_id : JVal
  sec_uid : JVal
  username : JVal
  as_dict : Option JVal

/-- `User.__update_id_sec_uid_username`. -/
def update_id_sec_uid_username (st : UserState) (i s u : JVal) : UserState :=
  { st with user_id := i, sec_uid := s, username := u }

/-- `v` is Python `None`. -/
def JVal.isNull : JVal → Bool
  | .vNull => true
  | _ => false

/-- The identifier-extraction portion of `User.__extract_from_data`, once
`data` is known to be a dict with field list `fields`: pull the identifier
triple either from `data["userInfo"].get("user", {})` (raising
`InvalidResponseException` when that user object is falsy or lacks `"id"`)
or from the top level, and assign it. -/
def extract_step (st : UserState) (fields : List (String × JVal)) :
    Except PyError UserState :=
  match jLookup fields "userInfo" with
  | some userInfo =>
    match userInfo with
    | .vObj uiFields =>
      let user_data := jGetD uiFields "user" (.vObj [])
      if !user_data.truthy then .error .invalidResponse
      else
        match pyContains user_data "id" with
        | .error e => .error e
        | .ok hasId =>
          if !hasId then .error .invalidResponse
          else
            match pyGetItem user_data "id" with
            | .error e => .error e
            | .ok i =>
              match pyGetItem user_data "secUid" with
              | .error e => .error e
              | .ok s =>
                match pyGetItem user_data "uniqueId" with
                | .error e => .error e
                | .ok u => .ok (update_id_sec_uid_username st i s u)
    | _ => .error .attributeError
  | none =>
    match pyGetItem (.vObj fields) "id" with
    | .error e => .error e
    | .ok i =>
      match pyGetItem (.vObj fields) "secUid" with
      | .error e => .error e
      | .ok s =>
        match pyGetItem (.vObj fields) "uniqueId" with
        | .error e => .error e
        | .ok u => .ok (update_id_sec_uid_username st i s u)

/-- `User.__extract_from_data`.  Reads `self.as_dict` (raising on a missing
attribute or a non-dict payload, since `.keys()` is called on it), runs the
extraction step, and performs the final `None in (username, user_id,
sec_uid)` check.  The returned `Bool` records whether that check fired —
in the source it only logs an error, it does not raise. -/
def extract_from_data (st : UserState) : Except PyError (UserState × Bool) :=
  match st.as_dict with
  | none => .error .attributeError
  | some data =>
    match data with
    | .vObj fields =>
      match extract_step st fields with
      | .error e => .error e
      | .ok st2 =>
        .ok (st2, st2.username.isNull || st2.user_id.isNull || st2.sec_uid.isNull)
    | _ => .error .attributeError

/-- Lift an optional Python string argument to a `JVal`. -/
def optJ : Option String → JVal
  | none => .vNull
  | some s => .vStr s

/-- `User.__init__`: record the supplied identifiers; when a raw payload is
supplied, store it and run `__extract_from_data` (whose exceptions escape
the constructor). -/
def user_new (username user_id sec_uid : Option String) (data : Option JVal) :
    Except PyError UserState :=
  let st0 : UserState :=
    { user_id := optJ user_id, sec_uid := optJ sec_uid,
      username := optJ username, as_dict := none }
  match data with
  | none => .ok st0
  | some d =>
    match extract_from_data { st0 with as_dict := some d } with
    | .error e => .error e
    | .ok (st1, _logged) => .ok st1

/-- The transport oracle: `make_request` returns the next response and
advances the fetch counter.  Request parameters do not influence the
oracle; pages are indexed by the number of requests issued so far. -/
def make_request (responses : Nat → Option JVal) (fetches : Nat) :
    Option JVal × Nat :=
  (responses fetches, fetches + 1)

/-- `User.info`.  Returns the post-state (Python mutates `self` in place,
also on the paths that raise), the fetch counter, and the result. -/
def info (responses : Nat → Option JVal) (st : UserState) (fetches : Nat) :
    UserState × Nat × Except PyError JVal :=
  if !st.username.truthy && !st.sec_uid.truthy then
    (st, fetches, .error .typeError)
  else
    match make_request responses fetches with
    | (none, f1) => (st, f1, .error .invalidResponse)
    | (some r, f1) =>
      let st1 := { st with as_dict := some r }
      match extract_from_data st1 with
      | .error e => (st1, f1, .error e)
      | .ok (st2, _logged) => (st2, f1, .ok r)

example :
    extract_from_data
      { user_id := .vNull, sec_uid := .vNull, username := .vNull,
        as_dict := some (.vObj [("userInfo", .vObj [("user",
          .vObj [("id", .vStr "1"), ("secUid", .vStr "s1"),
                 ("uniqueId", .vStr "bob")])])]) }
      = .ok ({ user_id := .vStr "1", sec_uid := .vStr "s1",
               username := .vStr "bob",
               as_dict := some (.vObj [("userInfo", .vObj [("user",
                 .vObj [("id", .vStr "1"), ("secUid", .vStr "s1"),
                        ("uniqueId", .vStr "bob")])])]) }, false) := by
  rfl

/-- How a pagination loop ended: normal return, fuel exhausted (the loop
would keep iterating), or a raised exception. -/
inductive PagResult : Type where
  | ok : PagResult
  | fuelOut : PagResult
  | raised : PyError → PagResult
  deriving DecidableEq

/-- Observable outcome of running a pagination loop: the raw items yielded
in order, the `count` parameter sent with each page request, the final
fetch counter, and how it ended. -/
structure PagOutcome : Type where
  items : List JVal
  pageSizes : List Int
  fetches : Nat
  result : PagResult

/-- The `while found < count` loop of `User.videos` (fuel-indexed; the
Python loop has no fuel bound).  Page size sent is the literal `35`; the
items of `resp.get("itemList", [])` are yielded in full; `hasMore` absent
defaults to `False`; the cursor advances to `resp.get("cursor")`. -/
def videosLoop (responses : Nat → Option JVal) (st : UserState) (count : Int) :
    JVal → Int → Nat → Nat → PagOutcome
  | _cursor, _found, fetches, 0 => ⟨[], [], fetches, .fuelOut⟩
  | cursor, found, fetches, fuel + 1 =>
    if found < count then
      match make_request responses fetches with
      | (none, f1) => ⟨[], [35], f1, .raised .invalidResponse⟩
      | (some r, f1) =>
        match r with
        | .vObj fs =>
          match jIter (jGetD fs "itemList" (.vList [])) with
          | .error e => ⟨[], [35], f1, .raised e⟩
          | .ok xs =>
            if !(jGetD fs "hasMore" (.vBool false)).truthy then
              ⟨xs, [35], f1, .ok⟩
            else
              let rest := videosLoop responses st count (jGetD fs "cursor" .vNull)
                (found + (xs.length : Int)) f1 fuel
              ⟨xs ++ rest.items, 35 :: rest.pageSizes, rest.fetches, rest.result⟩
        | _ => ⟨[], [35], f1, .raised .attributeError⟩
    else ⟨[], [], fetches, .ok⟩

/-- The `while found < count` loop of `User.liked`: identical to the
`videos` loop (page size `35`, item key `"itemList"`). -/
def likedLoop (responses : Nat → Option JVal) (st : UserState) (count : Int) :
    JVal → Int → Nat → Nat → PagOutcome
  | _cursor, _found, fetches, 0 => ⟨[], [], fetches, .fuelOut⟩
  | cursor, found, fetches, fuel + 1 =>
    if found < count then
      match make_request responses fetches with
      | (none, f1) => ⟨[], [35], f1, .raised .invalidResponse⟩
      | (some r, f1) =>
        match r with
        | .vObj fs =>
          match jIter (jGetD fs "itemList" (.vList [])) with
          | .error e => ⟨[], [35], f1, .raised e⟩
          | .ok xs =>
            if !(jGetD fs "hasMore" (.vBool false)).truthy then
              ⟨xs, [35], f1, .ok⟩
            else
              let rest := likedLoop responses st count (jGetD fs "cursor" .vNull)
                (found + (xs.length : Int)) f1 fuel
              ⟨xs ++ rest.items, 35 :: rest.pageSizes, rest.fetches, rest.result⟩
        | _ => ⟨[], [35], f1, .raised .attributeError⟩
    else ⟨[], [], fetches, .ok⟩

/-- The `while found < count` loop of `User.playlists`: page size sent is
`min(count, 20)` (the total requested count, not the remaining count) and
the item key is `"playList"`. -/
def playlistsLoop (responses : Nat → Option JVal) (st : UserState) (count : Int) :
    JVal → Int → Nat → Nat → PagOutcome
  | _cursor, _found, fetches, 0 => ⟨[], [], fetches, .fuelOut⟩
  | cursor, found, fetches, fuel + 1 =>
    if found < count then
      match make_request responses fetches with
      | (none, f1) => ⟨[], [min count 20], f1, .raised .invalidResponse⟩
      | (some r, f1) =>
        match r with
        | .vObj fs =>
          match jIter (jGetD fs "playList" (.vList [])) with
          | .error e => ⟨[], [min count 20], f1, .raised e⟩
          | .ok xs =>
            if !(jGetD fs "hasMore" (.vBool false)).truthy then
              ⟨xs, [min count 20], f1, .ok⟩
            else
              let rest := playlistsLoop responses st count (jGetD fs "cursor" .vNull)
                (found + (xs.length : Int)) f1 fuel
              ⟨xs ++ rest.items, min count 20 :: rest.pageSizes, rest.fetches,
               rest.result⟩
        | _ => ⟨[], [min count 20], f1, .raised .attributeError⟩
    else ⟨[], [], fetches, .ok⟩

/-- The hydration guard shared by the collection entry points:
`sec_uid is None or sec_uid == ""`. -/
def needsHydration (v : JVal) : Bool :=
  match v with
  | .vNull => true
  | .vStr s => s == ""
  | _ => false

/-- `User.videos`: hydrate first when `sec_uid` is unset, then run the
pagination loop starting at `found = 0`.  An exception from the implicit
`info` call aborts the generator before any yield. -/
def videosFn (responses : Nat → Option JVal) (st : UserState) (count : Int)
    (cursor : Int) (fetches : Nat) (fuel : Nat) : PagOutcome :=
  if needsHydration st.sec_uid then
    match info responses st fetches with
    | (st1, f1, .ok _) => videosLoop responses st1 count (.vInt cursor) 0 f1 fuel
    | (_, f1, .error e) => ⟨[], [], f1, .raised e⟩
  else
    videosLoop responses st count (.vInt cursor) 0 fetches fuel

/-- `User.liked`, analogously. -/
def likedFn (responses : Nat → Option JVal) (st : UserState) (count : Int)
    (cursor : Int) (fetches : Nat) (fuel : Nat) : PagOutcome :=
  if needsHydration st.sec_uid then
    match info responses st fetches with
    | (st1, f1, .ok _) => likedLoop responses st1 count (.vInt cursor) 0 f1 fuel
    | (_, f1, .error e) => ⟨[], [], f1, .raised e⟩
  else
    likedLoop responses st count (.vInt cursor) 0 fetches fuel

/-- `User.playlists`, analogously (`found = 0` is set before the loop). -/
def playlistsFn (responses : Nat → Option JVal) (st : UserState) (count : Int)
    (cursor : Int) (fetches : Nat) (fuel : Nat) : PagOutcome :=
  if needsHydration st.sec_uid then
    match info responses st fetches with
    | (st1, f1, .ok _) => playlistsLoop responses st1 count (.vInt cursor) 0 f1 fuel
    | (_, f1, .error e) => ⟨[], [], f1, .raised e⟩
  else
    playlistsLoop responses st count (.vInt cursor) 0 fetches fuel

/-- `User.videos_page`: hydrate if needed, issue exactly one request with
page size `min(count, 35)`, and return the
`{"videos": ..., "cursor": resp.get("cursor"),
"hasMore": resp.get("hasMore", False)}` dictionary. -/
def videos_page (responses : Nat → Option JVal) (st : UserState) (count : Int)
    (cursor : Int) (fetches : Nat) : UserState × Nat × Except PyError JVal :=
  let hyd : UserState × Nat × Except PyError Unit :=
    if needsHydration st.sec_uid then
      match info responses st fetches with
      | (st1, f1, .ok _) => (st1, f1, .ok ())
      | (st1, f1, .error e) => (st1, f1, .error e)
    else (st, fetches, .ok ())
  match hyd with
  | (st1, f1, .error e) => (st1, f1, .error e)
  | (st1, f1, .ok _) =>
    match make_request responses f1 with
    | (none, f2) => (st1, f2, .error .invalidResponse)
    | (some r, f2) =>
      match r with
      | .vObj fs =>
        match jIter (jGetD fs "itemList" (.vList [])) with
        | .error e => (st1, f2, .error e)
        | .ok xs =>
          (st1, f2, .ok (.vObj
            [("videos", .vList xs),
             ("cursor", jGetD fs "cursor" .vNull),
             ("hasMore", jGetD fs "hasMore" (.vBool false))]))
      | _ => (st1, f2, .error .attributeError)

/-- The common shape of the three pagination loops, abstracted over the
page-size value `sz` actually sent and the item key.  `videosLoop` and
`likedLoop` are this with `sz = 35`, `key = "itemList"`; `playlistsLoop`
is this with `sz = min count 20`, `key = "playList"` (proved below). -/
def genLoop (sz : Int) (key : String) (responses : Nat → Option JVal)
    (st : UserState) (count : Int) : JVal → Int → Nat → Nat → PagOutcome
  | _cursor, _found, fetches, 0 => ⟨[], [], fetches, .fuelOut⟩
  | cursor, found, fetches, fuel + 1 =>
    if found < count then
      match make_request responses fetches with
      | (none, f1) => ⟨[], [sz], f1, .raised .invalidResponse⟩
      | (some r, f1) =>
        match r with
        | .vObj fs =>
          match jIter (jGetD fs key (.vList [])) with
          | .error e => ⟨[], [sz], f1, .raised e⟩
          | .ok xs =>
            if !(jGetD fs "hasMore" (.vBool false)).truthy then
              ⟨xs, [sz], f1, .ok⟩
            else
              let rest := genLoop sz key responses st count (jGetD fs "cursor" .vNull)
                (found + (xs.length : Int)) f1 fuel
              ⟨xs ++ rest.items, sz :: rest.pageSizes, rest.fetches, rest.result⟩
        | _ => ⟨[], [sz], f1, .raised .attributeError⟩
    else ⟨[], [], fetches, .ok⟩

/-- A well-formed page response under item key `key`: the transport
returned a JSON object whose `key` entry (default `[]`) is a list.
`pageOf` extracts the item list and the truthiness of
`resp.get("hasMore", False)`. -/
def pageOf (key : String) : Option JVal → Option (List JVal × Bool)
  | some (.vObj fs) =>
    match jGetD fs key (.vList []) with
    | .vList xs => some (xs, (jGetD fs "hasMore" (.vBool false)).truthy)
    | _ => none
  | _ => none

/-- Concatenation of the page item lists `pg base, pg (base+1), ...,
pg (base+k-1)`. -/
def catPages (pg : Nat → List JVal) : Nat → Nat → List JVal
  | _base, 0 => []
  | base, k + 1 => pg base ++ catPages pg (base + 1) k

/-- Total number of items in pages `base, ..., base+k-1`. -/
def sumLen (pg : Nat → List JVal) : Nat → Nat → Nat
  | _base, 0 => 0
  | base, k + 1 => (pg base).length + sumLen pg (base + 1) k

/-- A page that keeps the loop spinning without progress: a JSON object
whose item list under `key` is absent or empty while `hasMore` is truthy. -/
def badPage (key : String) (o : Option JVal) : Prop :=
  ∃ fs, o = some (.vObj fs)
    ∧ (jLookup fs key = none ∨ jLookup fs key = some (.vList []))
    ∧ (jGetD fs "hasMore" (.vBool false)).truthy = true

/-- The loop continues past a response exactly when it is a JSON object
whose item list iterates without error and whose `hasMore` is truthy. -/
def contResp (key : String) : Option JVal → Bool
  | some (.vObj fs) =>
    (match jIter (jGetD fs key (.vList [])) with
     | .ok _ => true
     | .error _ => false)
    && (jGetD fs "hasMore" (.vBool false)).truthy
  | _ => false

/-- The abstract behaviour of one pagination call (`found` starts at 0)
against a well-formed page sequence `pg`/`more` starting at fetch index
`fetches`: every fetched page is yielded in full and in order; each fetch
advances the counter; a fetch is only issued while the count is not yet
reached (so the total may overshoot `count` by at most one page) and, after
the first, only when the previous page said `hasMore`; a normal return
means the count was reached or the last page said no continuation. -/
def paginationSpec (pg : Nat → List JVal) (more : Nat → Bool) (count : Int)
    (fetches : Nat) (out : PagOutcome) : Prop :=
  out.items = catPages pg fetches out.pageSizes.length
  ∧ out.fetches = fetches + out.pageSizes.length
  ∧ (∀ j : Nat, j < out.pageSizes.length → (sumLen pg fetches j : Int) < count)
  ∧ (∀ j : Nat, j + 1 < out.pageSizes.length → more (fetches + j) = true)
  ∧ (out.result = .ok →
      (out.pageSizes.length = 0 ∧ count ≤ 0)
      ∨ (0 < out.pageSizes.length
         ∧ (more (fetches + (out.pageSizes.length - 1)) = false
            ∨ count ≤ (sumLen pg fetches out.pageSizes.length : Int))))
  ∧ (0 < out.pageSizes.length →
      (out.items.length : Int)
        ≤ (count - 1) + ((pg (fetches + (out.pageSizes.length - 1))).length : Int))

/-- A hydrated user state: `sec_uid` set, so pagination skips hydration. -/
def stHyd : UserState :=
  { user_id := .vStr "id1", sec_uid := .vStr "sec1", username := .vStr "bob",
    as_dict := none }

/-- A user constructed with only a username. -/
def stBob : UserState :=
  { user_id := .vNull, sec_uid := .vNull, username := .vStr "bob",
    as_dict := none }

/-- A user constructed with no identifier at all. -/
def stEmpty : UserState :=
  { user_id := .vNull, sec_uid := .vNull, username := .vNull, as_dict := none }

/-- One raw item, used in concrete pages. -/
def itemA : JVal := .vObj [("id", .vStr "a")]

/-- A final page: one item under both collection keys, `hasMore` absent. -/
def lastPage : JVal :=
  .vObj [("itemList", .vList [itemA]), ("playList", .vList [itemA])]

/-- Transport returning `lastPage` forever. -/
def oracleLast : Nat → Option JVal := fun _ => some lastPage

/-- A page that signals continuation but carries no items. -/
def spinPage : JVal := .vObj [("hasMore", .vBool true)]

/-- Transport returning `spinPage` forever. -/
def oracleSpin : Nat → Option JVal := fun _ => some spinPage

/-- A page with one item under both keys that signals continuation. -/
def contPage : JVal :=
  .vObj [("itemList", .vList [itemA]), ("playList", .vList [itemA]),
         ("hasMore", .vBool true), ("cursor", .vInt 7)]

/-- Transport: one good continuing page, then `None`. -/
def oracleThenNull : Nat → Option JVal := fun n =>
  if n = 0 then some contPage else none

/-- Profile payload whose identifier fields are explicit JSON nulls: it
passes the emptiness check (`user` is a non-empty dict containing `"id"`)
yet resolves every identifier to `None`. -/
def nullIdPayload : JVal :=
  .vObj [("userInfo", .vObj [("user",
    .vObj [("id", .vNull), ("secUid", .vNull), ("uniqueId", .vNull)])])]

/-- A well-formed profile payload. -/
def goodPayload : JVal :=
  .vObj [("userInfo", .vObj [("user",
    .vObj [("id", .vStr "1"), ("secUid", .vStr "s1"),
           ("uniqueId", .vStr "bob")])])]

/-- Profile payload with an empty nested user object. -/
def emptyUserPayload : JVal := .vObj [("userInfo", .vObj [("user", .vObj [])])]

/-- A user whose raw payload is an empty dict (no `userInfo`, no `id`). -/
def emptyDictState : UserState :=
  { user_id := .vNull, sec_uid := .vNull, username := .vNull,
    as_dict := some (.vObj []) }

/-- The page fields used by the C4 witness: items present, `hasMore` absent. -/
def fsStop : List (String × JVal) :=
  [("itemList", .vList [itemA]), ("playList", .vList [])]

/-- Transport returning the `fsStop` page forever. -/
def oracleStop : Nat → Option JVal := fun _ => some (.vObj fsStop)

theorem videosLoop_eq_genLoop (responses : Nat → Option JVal) (st : UserState)
    (count : Int) :
    ∀ (fuel : Nat) (cursor : JVal) (found : Int) (fetches : Nat),
      videosLoop responses st count cursor found fetches fuel
        = genLoop 35 "itemList" responses st count cursor found fetches fuel := by
  intro fuel
  induction fuel with
  | zero => intro cursor found fetches; rfl
  | succ n ih =>
    intro cursor found fetches
    simp only [videosLoop, genLoop, make_request]
    by_cases hfc : found < count
    · simp only [hfc, if_true]
      cases responses fetches with
      | none => rfl
      | some r =>
        cases r with
        | vObj fs =>
          cases hj : jIter (jGetD fs "itemList" (.vList [])) with
          | error e => simp [hj]
          | ok xs =>
            by_cases hm : (jGetD fs "hasMore" (.vBool false)).truthy
            · simp [hj, hm, ih]
            · simp [hj, hm]
        | vNull => rfl
        | vBool b => rfl
        | vInt n2 => rfl
        | vStr s => rfl
        | vList xs => rfl
    · simp [hfc]

theorem likedLoop_eq_genLoop (responses : Nat → Option JVal) (st : UserState)
    (count : Int) :
    ∀ (fuel : Nat) (cursor : JVal) (found : Int) (fetches : Nat),
      likedLoop responses st count cursor found fetches fuel
        = genLoop 35 "itemList" responses st count cursor found fetches fuel := by
  intro fuel
  induction fuel with
  | zero => intro cursor found fetches; rfl
  | succ n ih =>
    intro cursor found fetches
    simp only [likedLoop, genLoop, make_request]
    by_cases hfc : found < count
    · simp only [hfc, if_true]
      cases responses fetches with
      | none => rfl
      | some r =>
        cases r with
        | vObj fs =>
          cases hj : jIter (jGetD fs "itemList" (.vList [])) with
          | error e => simp [hj]
          | ok xs =>
            by_cases hm : (jGetD fs "hasMore" (.vBool false)).truthy
            · simp [hj, hm, ih]
            · simp [hj, hm]
        | vNull => rfl
        | vBool b => rfl
        | vInt n2 => rfl
        | vStr s => rfl
        | vList xs => rfl
    · simp [hfc]

theorem playlistsLoop_eq_genLoop (responses : Nat → Option JVal) (st : UserState)
    (count : Int) :
    ∀ (fuel : Nat) (cursor : JVal) (found : Int) (fetches : Nat),
      playlistsLoop responses st count cursor found fetches fuel
        = genLoop (min count 20) "playList" responses st count cursor found fetches fuel := by
  intro fuel
  induction fuel with
  | zero => intro cursor found fetches; rfl
  | succ n ih =>
    intro cursor found fetches
    simp only [playlistsLoop, genLoop, make_request]
    by_cases hfc : found < count
    · simp only [hfc, if_true]
      cases responses fetches with
      | none => rfl
      | some r =>
        cases r with
        | vObj fs =>
          cases hj : jIter (jGetD fs "playList" (.vList [])) with
          | error e => simp [hj]
          | ok xs =>
            by_cases hm : (jGetD fs "hasMore" (.vBool false)).truthy
            · simp [hj, hm, ih]
            · simp [hj, hm]
        | vNull => rfl
        | vBool b => rfl
        | vInt n2 => rfl
        | vStr s => rfl
        | vList xs => rfl
    · simp [hfc]

theorem catPages_length (pg : Nat → List JVal) :
    ∀ (k base : Nat), (catPages pg base k).length = sumLen pg base k := by
  intro k
  induction k with
  | zero => intro base; rfl
  | succ n ih => intro base; simp [catPages, sumLen, ih]

theorem sumLen_succ_back (pg : Nat → List JVal) :
    ∀ (k base : Nat),
      sumLen pg base (k + 1) = sumLen pg base k + (pg (base + k)).length := by
  intro k
  induction k with
  | zero => intro base; simp [sumLen]
  | succ n ih =>
    intro base
    have h1 : base + (n + 1) = (base + 1) + n := by omega
    rw [show sumLen pg base (n + 1 + 1)
          = (pg base).length + sumLen pg (base + 1) (n + 1) from rfl,
        ih (base + 1),
        show sumLen pg base (n + 1)
          = (pg base).length + sumLen pg (base + 1) n from rfl,
        h1]
    omega

theorem genLoop_wf (sz : Int) (key : String) (responses : Nat → Option JVal)
    (st : UserState) (count : Int) (pg : Nat → List JVal) (more : Nat → Bool)
    (hresp : ∀ n, pageOf key (responses n) = some (pg n, more n)) :
    ∀ (fuel : Nat) (cursor : JVal) (found : Int) (fetches : Nat)
      (out : PagOutcome),
      out = genLoop sz key responses st count cursor found fetches fuel →
      out.items = catPages pg fetches out.pageSizes.length
      ∧ out.fetches = fetches + out.pageSizes.length
      ∧ out.pageSizes = List.replicate out.pageSizes.length sz
      ∧ (out.result = .ok ∨ out.result = .fuelOut)
      ∧ (∀ j : Nat, j < out.pageSizes.length →
          found + (sumLen pg fetches j : Int) < count)
      ∧ (∀ j : Nat, j + 1 < out.pageSizes.length → more (fetches + j) = true)
      ∧ (out.result = .ok →
          (out.pageSizes.length = 0 ∧ count ≤ found)
          ∨ (0 < out.pageSizes.length
             ∧ (more (fetches + (out.pageSizes.length - 1)) = false
                ∨ count ≤ found + (sumLen pg fetches out.pageSizes.length : Int)))) := by
  intro fuel
  induction fuel with
  | zero =>
    intro cursor found fetches out hout
    subst hout
    refine ⟨rfl, rfl, rfl, Or.inr rfl, ?_, ?_, ?_⟩
    · intro j hj
      simp [genLoop] at hj
    · intro j hj
      simp [genLoop] at hj
    · intro hok
      simp [genLoop] at hok
  | succ n ih =>
    intro cursor found fetches out hout
    subst hout
    by_cases hfc : found < count
    · have hr := hresp fetches
      cases hrr : responses fetches with
      | none => rw [hrr] at hr; simp [pageOf] at hr
      | some r =>
        rw [hrr] at hr
        cases r with
        | vNull => simp [pageOf] at hr
        | vBool b => simp [pageOf] at hr
        | vInt m => simp [pageOf] at hr
        | vStr s2 => simp [pageOf] at hr
        | vList l => simp [pageOf] at hr
        | vObj fs =>
          simp only [pageOf] at hr
          cases hil : jGetD fs key (.vList []) with
          | vNull => rw [hil] at hr; simp at hr
          | vBool b => rw [hil] at hr; simp at hr
          | vInt m => rw [hil] at hr; simp at hr
          | vStr s2 => rw [hil] at hr; simp at hr
          | vObj fs2 => rw [hil] at hr; simp at hr
          | vList xs =>
            rw [hil] at hr
            simp only [Option.some.injEq, Prod.mk.injEq] at hr
            obtain ⟨hxs, hmore⟩ := hr
            have hstep : genLoop sz key responses st count cursor found fetches (n + 1)
                = if !(jGetD fs "hasMore" (.vBool false)).truthy then
                    ⟨xs, [sz], fetches + 1, .ok⟩
                  else
                    ⟨xs ++ (genLoop sz key responses st count (jGetD fs "cursor" .vNull)
                        (found + (xs.length : Int)) (fetches + 1) n).items,
                     sz :: (genLoop sz key responses st count (jGetD fs "cursor" .vNull)
                        (found + (xs.length : Int)) (fetches + 1) n).pageSizes,
                     (genLoop sz key responses st count (jGetD fs "cursor" .vNull)
                        (found + (xs.length : Int)) (fetches + 1) n).fetches,
                     (genLoop sz key responses st count (jGetD fs "cursor" .vNull)
                        (found + (xs.length : Int)) (fetches + 1) n).result⟩ := by
              simp [genLoop, make_request, hrr, hil, hfc, jIter]
            rw [hstep]
            by_cases hm2 : (jGetD fs "hasMore" (.vBool false)).truthy = true
            · rw [if_neg (by simp [hm2])]
              obtain ⟨iA, iB, iC, iD, iE, iF, iG⟩ :=
                ih (jGetD fs "cursor" .vNull) (found + (xs.length : Int)) (fetches + 1)
                  (genLoop sz key responses st count (jGetD fs "cursor" .vNull)
                    (found + (xs.length : Int)) (fetches + 1) n) rfl
              refine ⟨?_, ?_, ?_, iD, ?_, ?_, ?_⟩
              · dsimp only
                simp only [List.length_cons]
                rw [show ∀ b k, catPages pg b (k + 1) = pg b ++ catPages pg (b + 1) k
                      from fun b k => rfl]
                rw [iA, hxs]
              · dsimp only
                simp only [List.length_cons]
                omega
              · dsimp only
                simp only [List.length_cons, List.replicate_succ]
                rw [← iC]
              · intro j hj
                dsimp only at hj
                simp only [List.length_cons] at hj
                cases j with
                | zero => simpa [sumLen] using hfc
                | succ j2 =>
                  have hE := iE j2 (by omega)
                  have hlen : xs.length = (pg fetches).length := by rw [hxs]
                  rw [show sumLen pg fetches (j2 + 1)
                        = (pg fetches).length + sumLen pg (fetches + 1) j2 from rfl]
                  push_cast at hE ⊢
                  omega
              · intro j hj
                dsimp only at hj
                simp only [List.length_cons] at hj
                cases j with
                | zero =>
                  have hmt : more fetches = true := by rw [← hmore]; exact hm2
                  simpa using hmt
                | succ j2 =>
                  have hF := iF j2 (by omega)
                  have harg : fetches + (j2 + 1) = (fetches + 1) + j2 := by omega
                  rw [harg]
                  exact hF
              · intro hok
                have iG2 := iG hok
                right
                dsimp only
                simp only [List.length_cons]
                have hlen : xs.length = (pg fetches).length := by rw [hxs]
                refine ⟨by omega, ?_⟩
                rcases iG2 with ⟨hk0, hcnt⟩ | ⟨hpos, hor⟩
                · right
                  rw [hk0]
                  rw [show sumLen pg fetches (0 + 1)
                        = (pg fetches).length + sumLen pg (fetches + 1) 0 from rfl]
                  rw [show sumLen pg (fetches + 1) 0 = 0 from rfl]
                  push_cast
                  omega
                · rcases hor with hmf | hcnt
                  · left
                    have harg : fetches + ((genLoop sz key responses st count
                          (jGetD fs "cursor" .vNull) (found + (xs.length : Int))
                          (fetches + 1) n).pageSizes.length + 1 - 1)
                        = (fetches + 1) + ((genLoop sz key responses st count
                          (jGetD fs "cursor" .vNull) (found + (xs.length : Int))
                          (fetches + 1) n).pageSizes.length - 1) := by omega
                    rw [harg]
                    exact hmf
                  · right
                    rw [show ∀ k, sumLen pg fetches (k + 1)
                          = (pg fetches).length + sumLen pg (fetches + 1) k
                          from fun k => rfl]
                    push_cast at hcnt ⊢
                    omega
            · rw [if_pos (by simp [hm2])]
              have hm2f : (jGetD fs "hasMore" (.vBool false)).truthy = false := by
                simpa using hm2
              refine ⟨?_, rfl, ?_, Or.inl rfl, ?_, ?_, ?_⟩
              · simp [catPages, hxs]
              · simp
              · intro j hj
                simp at hj
                subst hj
                simpa [sumLen] using hfc
              · intro j hj
                simp at hj
              · intro hok
                right
                refine ⟨by simp, Or.inl ?_⟩
                have hmf : more fetches = false := by rw [← hmore]; exact hm2f
                simpa using hmf
    · have hstop : genLoop sz key responses st count cursor found fetches (n + 1)
          = ⟨[], [], fetches, .ok⟩ := by
        simp [genLoop, hfc]
      rw [hstop]
      refine ⟨rfl, rfl, rfl, Or.inl rfl, ?_, ?_, ?_⟩
      · intro j hj
        simp at hj
      · intro j hj
        simp at hj
      · intro hok
        exact Or.inl ⟨rfl, by omega⟩

theorem genLoop_null (sz : Int) (key : String) (responses : Nat → Option JVal)
    (st : UserState) (count : Int) (pg : Nat → List JVal) (more : Nat → Bool) :
    ∀ (k : Nat) (fuel : Nat) (cursor : JVal) (found : Int) (fetches : Nat),
      k < fuel →
      (∀ j : Nat, j < k →
        pageOf key (responses (fetches + j))
          = some (pg (fetches + j), more (fetches + j))) →
      (∀ j : Nat, j < k → more (fetches + j) = true) →
      (∀ j : Nat, j ≤ k → found + (sumLen pg fetches j : Int) < count) →
      responses (fetches + k) = none →
      genLoop sz key responses st count cursor found fetches fuel
        = ⟨catPages pg fetches k, List.replicate (k + 1) sz, fetches + k + 1,
           .raised .invalidResponse⟩ := by
  intro k
  induction k with
  | zero =>
    intro fuel cursor found fetches hfu hp hm hcnt hnull
    obtain ⟨fuel2, rfl⟩ : ∃ m, fuel = m + 1 := ⟨fuel - 1, by omega⟩
    have hfc : found < count := by simpa [sumLen] using hcnt 0 (by omega)
    have hn : responses fetches = none := by simpa using hnull
    simp [genLoop, make_request, hfc, hn, catPages]
  | succ k2 ihk =>
    intro fuel cursor found fetches hfu hp hm hcnt hnull
    obtain ⟨fuel2, rfl⟩ : ∃ m, fuel = m + 1 := ⟨fuel - 1, by omega⟩
    have hfc : found < count := by simpa [sumLen] using hcnt 0 (by omega)
    have hp0 : pageOf key (responses fetches) = some (pg fetches, more fetches) := by
      simpa using hp 0 (by omega)
    have hm0 : more fetches = true := by simpa using hm 0 (by omega)
    cases hrr : responses fetches with
    | none => rw [hrr] at hp0; simp [pageOf] at hp0
    | some r =>
      rw [hrr] at hp0
      cases r with
      | vNull => simp [pageOf] at hp0
      | vBool b => simp [pageOf] at hp0
      | vInt m2 => simp [pageOf] at hp0
      | vStr s2 => simp [pageOf] at hp0
      | vList l => simp [pageOf] at hp0
      | vObj fs =>
        simp only [pageOf] at hp0
        cases hil : jGetD fs key (.vList []) with
        | vNull => rw [hil] at hp0; simp at hp0
        | vBool b => rw [hil] at hp0; simp at hp0
        | vInt m2 => rw [hil] at hp0; simp at hp0
        | vStr s2 => rw [hil] at hp0; simp at hp0
        | vObj fs2 => rw [hil] at hp0; simp at hp0
        | vList xs =>
          rw [hil] at hp0
          simp only [Option.some.injEq, Prod.mk.injEq] at hp0
          obtain ⟨hxs, hmore⟩ := hp0
          have hmt : (jGetD fs "hasMore" (.vBool false)).truthy = true :=
            hmore.trans hm0
          have hstep : genLoop sz key responses st count cursor found fetches (fuel2 + 1)
              = ⟨xs ++ (genLoop sz key responses st count (jGetD fs "cursor" .vNull)
                    (found + (xs.length : Int)) (fetches + 1) fuel2).items,
                 sz :: (genLoop sz key responses st count (jGetD fs "cursor" .vNull)
                    (found + (xs.length : Int)) (fetches + 1) fuel2).pageSizes,
                 (genLoop sz key responses st count (jGetD fs "cursor" .vNull)
                    (found + (xs.length : Int)) (fetches + 1) fuel2).fetches,
                 (genLoop sz key responses st count (jGetD fs "cursor" .vNull)
                    (found + (xs.length : Int)) (fetches + 1) fuel2).result⟩ := by
            simp [genLoop, make_request, hrr, hil, hfc, jIter, hmt]
          have hlen : xs.length = (pg fetches).length := by rw [hxs]
          have hrest : genLoop sz key responses st count (jGetD fs "cursor" .vNull)
              (found + (xs.length : Int)) (fetches + 1) fuel2
              = ⟨catPages pg (fetches + 1) k2, List.replicate (k2 + 1) sz,
                 (fetches + 1) + k2 + 1, .raised .invalidResponse⟩ := by
            apply ihk fuel2 (jGetD fs "cursor" .vNull)
              (found + (xs.length : Int)) (fetches + 1) (by omega)
            · intro j hj
              have harg : (fetches + 1) + j = fetches + (j + 1) := by omega
              rw [harg]
              exact hp (j + 1) (by omega)
            · intro j hj
              have harg : (fetches + 1) + j = fetches + (j + 1) := by omega
              rw [harg]
              exact hm (j + 1) (by omega)
            · intro j hj
              have hc := hcnt (j + 1) (by omega)
              rw [show sumLen pg fetches (j + 1)
                    = (pg fetches).length + sumLen pg (fetches + 1) j from rfl] at hc
              push_cast at hc ⊢
              omega
            · have harg : (fetches + 1) + k2 = fetches + (k2 + 1) := by omega
              rw [harg]
              exact hnull
          rw [hstep, hrest]
          dsimp only
          simp only [PagOutcome.mk.injEq]
          refine ⟨?_, ?_, ?_, trivial⟩
          · rw [show catPages pg fetches (k2 + 1)
                  = pg fetches ++ catPages pg (fetches + 1) k2 from rfl, hxs]
          · simp [List.replicate_succ]
          · omega

theorem genLoop_sizes (sz : Int) (key : String) (responses : Nat → Option JVal)
    (st : UserState) (count : Int) :
    ∀ (fuel : Nat) (cursor : JVal) (found : Int) (fetches : Nat),
      (genLoop sz key responses st count cursor found fetches fuel).pageSizes.all
        (fun x => x == sz) = true := by
  intro fuel
  induction fuel with
  | zero => intro cursor found fetches; rfl
  | succ n ih =>
    intro cursor found fetches
    by_cases hfc : found < count
    · cases hrr : responses fetches with
      | none => simp [genLoop, make_request, hrr, hfc]
      | some r =>
        cases r with
        | vObj fs =>
          cases hj : jIter (jGetD fs key (.vList [])) with
          | error e => simp [genLoop, make_request, hrr, hfc, hj]
          | ok xs =>
            by_cases hm2 : (jGetD fs "hasMore" (.vBool false)).truthy
            · simp [genLoop, make_request, hrr, hfc, hj, hm2, ih]
            · simp [genLoop, make_request, hrr, hfc, hj, hm2]
        | vNull => simp [genLoop, make_request, hrr, hfc]
        | vBool b => simp [genLoop, make_request, hrr, hfc]
        | vInt m => simp [genLoop, make_request, hrr, hfc]
        | vStr s2 => simp [genLoop, make_request, hrr, hfc]
        | vList l => simp [genLoop, make_request, hrr, hfc]
    · simp [genLoop, hfc]

theorem genLoop_diverge (sz : Int) (key : String) (responses : Nat → Option JVal)
    (st : UserState) (count : Int)
    (hbad : ∀ n, badPage key (responses n)) :
    ∀ (fuel : Nat) (cursor : JVal) (found : Int) (fetches : Nat),
      found < count →
      genLoop sz key responses st count cursor found fetches fuel
        = ⟨[], List.replicate fuel sz, fetches + fuel, .fuelOut⟩ := by
  intro fuel
  induction fuel with
  | zero => intro cursor found fetches hfc; rfl
  | succ n ih =>
    intro cursor found fetches hfc
    obtain ⟨fs, hrr, hil, hmt⟩ := hbad fetches
    have hil2 : jGetD fs key (.vList []) = .vList [] := by
      rcases hil with h | h <;> simp [jGetD, h]
    have hrec := ih (jGetD fs "cursor" .vNull) (found + ((0 : Nat) : Int)) (fetches + 1)
      (by omega)
    simp only [genLoop, make_request, hrr, hil2, hfc, jIter, hmt, if_true,
      Bool.not_true, Bool.false_eq_true, if_false]
    simp only [List.length_nil, Nat.cast_zero] at hrec ⊢
    rw [hrec]
    simp [List.replicate_succ]
    omega

theorem genLoop_stops (sz : Int) (key : String) (responses : Nat → Option JVal)
    (st : UserState) (count : Int) :
    ∀ (fuel : Nat) (k : Nat) (cursor : JVal) (found : Int) (fetches : Nat),
      k < fuel →
      contResp key (responses (fetches + k)) = false →
      (genLoop sz key responses st count cursor found fetches fuel).result
        ≠ .fuelOut := by
  intro fuel
  induction fuel with
  | zero => intro k cursor found fetches hk hc; omega
  | succ n ih =>
    intro k cursor found fetches hk hc
    by_cases hfc : found < count
    · cases hrr : responses fetches with
      | none => simp [genLoop, make_request, hrr, hfc]
      | some r =>
        cases r with
        | vObj fs =>
          cases hj : jIter (jGetD fs key (.vList [])) with
          | error e => simp [genLoop, make_request, hrr, hfc, hj]
          | ok xs =>
            by_cases hm2 : (jGetD fs "hasMore" (.vBool false)).truthy
            · have hk0 : k ≠ 0 := by
                intro h0
                subst h0
                rw [Nat.add_zero, hrr] at hc
                simp [contResp, hj, hm2] at hc
              obtain ⟨k2, rfl⟩ : ∃ m, k = m + 1 := ⟨k - 1, by omega⟩
              have hc2 : contResp key (responses ((fetches + 1) + k2)) = false := by
                have harg : (fetches + 1) + k2 = fetches + (k2 + 1) := by omega
                rw [harg]
                exact hc
              have hrec := ih k2 (jGetD fs "cursor" .vNull)
                (found + (xs.length : Int)) (fetches + 1) (by omega) hc2
              have hstep : genLoop sz key responses st count cursor found fetches (n + 1)
                  = ⟨xs ++ (genLoop sz key responses st count (jGetD fs "cursor" .vNull)
                        (found + (xs.length : Int)) (fetches + 1) n).items,
                     sz :: (genLoop sz key responses st count (jGetD fs "cursor" .vNull)
                        (found + (xs.length : Int)) (fetches + 1) n).pageSizes,
                     (genLoop sz key responses st count (jGetD fs "cursor" .vNull)
                        (found + (xs.length : Int)) (fetches + 1) n).fetches,
                     (genLoop sz key responses st count (jGetD fs "cursor" .vNull)
                        (found + (xs.length : Int)) (fetches + 1) n).result⟩ := by
                simp [genLoop, make_request, hrr, hfc, hj, hm2]
              rw [hstep]
              exact hrec
            · simp [genLoop, make_request, hrr, hfc, hj, hm2]
        | vNull => simp [genLoop, make_request, hrr, hfc]
        | vBool b => simp [genLoop, make_request, hrr, hfc]
        | vInt m => simp [genLoop, make_request, hrr, hfc]
        | vStr s2 => simp [genLoop, make_request, hrr, hfc]
        | vList l => simp [genLoop, make_request, hrr, hfc]
    · simp [genLoop, hfc]

theorem extract_ok_logged (st st2 : UserState) (b : Bool)
    (h : extract_from_data st = .ok (st2, b)) :
    b = (st2.username.isNull || st2.user_id.isNull || st2.sec_uid.isNull) := by
  unfold extract_from_data at h
  cases hd : st.as_dict with
  | none => rw [hd] at h; simp at h
  | some data =>
    rw [hd] at h
    cases data with
    | vObj fields =>
      dsimp only at h
      cases hs : extract_step st fields with
      | error e => rw [hs] at h; simp at h
      | ok st3 =>
        rw [hs] at h
        simp only [Except.ok.injEq, Prod.mk.injEq] at h
        obtain ⟨h1, h2⟩ := h
        rw [← h2, h1]
    | vNull => simp at h
    | vBool b2 => simp at h
    | vInt m => simp at h
    | vStr s2 => simp at h
    | vList l => simp at h

theorem info_fetches_le (responses : Nat → Option JVal) (st : UserState)
    (f : Nat) : (info responses st f).2.1 ≤ f + 1 := by
  unfold info
  by_cases h : (!st.username.truthy && !st.sec_uid.truthy) = true
  · simp [h]
  · rw [if_neg h]
    cases hre : responses f with
    | none => simp [make_request, hre]
    | some r =>
      cases hx : extract_from_data { st with as_dict := some r } with
      | error e => simp [make_request, hre, hx]
      | ok p =>
        cases p with
        | mk st2 lg => simp [make_request, hre, hx]

theorem videos_page_fetches_le (responses : Nat → Option JVal) (st : UserState)
    (count : Int) (cursor : Int) (fetches : Nat) :
    (videos_page responses st count cursor fetches).2.1 ≤ fetches + 2 := by
  unfold videos_page
  by_cases hsec : needsHydration st.sec_uid = true
  · rcases hinf : info responses st fetches with ⟨st1, f1, res⟩
    have hf1 : f1 ≤ fetches + 1 := by
      have hb := info_fetches_le responses st fetches
      rw [hinf] at hb
      simpa using hb
    cases res with
    | error e => simp [hsec, hinf]; omega
    | ok r =>
      cases hre : responses f1 with
      | none => simp [hsec, hinf, make_request, hre]; omega
      | some r2 =>
        cases r2 with
        | vObj fs =>
          cases hj : jIter (jGetD fs "itemList" (.vList [])) with
          | error e => simp [hsec, hinf, make_request, hre, hj]; omega
          | ok xs => simp [hsec, hinf, make_request, hre, hj]; omega
        | vNull => simp [hsec, hinf, make_request, hre]; omega
        | vBool b => simp [hsec, hinf, make_request, hre]; omega
        | vInt m => simp [hsec, hinf, make_request, hre]; omega
        | vStr s2 => simp [hsec, hinf, make_request, hre]; omega
        | vList l => simp [hsec, hinf, make_request, hre]; omega
  · cases hre : responses fetches with
    | none => simp [hsec, make_request, hre]
    | some r2 =>
      cases r2 with
      | vObj fs =>
        cases hj : jIter (jGetD fs "itemList" (.vList [])) with
        | error e => simp [hsec, make_request, hre, hj]
        | ok xs => simp [hsec, make_request, hre, hj]
      | vNull => simp [hsec, make_request, hre]
      | vBool b => simp [hsec, make_request, hre]
      | vInt m => simp [hsec, make_request, hre]
      | vStr s2 => simp [hsec, make_request, hre]
      | vList l => simp [hsec, make_request, hre]

theorem genLoop_paginationSpec (sz : Int) (key : String)
    (responses : Nat → Option JVal) (st : UserState) (count : Int)
    (pg : Nat → List JVal) (more : Nat → Bool)
    (hresp : ∀ n, pageOf key (responses n) = some (pg n, more n))
    (fuel : Nat) (cursor : JVal) (fetches : Nat) :
    paginationSpec pg more count fetches
      (genLoop sz key responses st count cursor 0 fetches fuel) := by
  obtain ⟨hA, hB, hC, hD, hE, hF, hG⟩ :=
    genLoop_wf sz key responses st count pg more hresp fuel cursor 0 fetches
      (genLoop sz key responses st count cursor 0 fetches fuel) rfl
  refine ⟨hA, hB, ?_, hF, ?_, ?_⟩
  · intro j hj
    have hE2 := hE j hj
    omega
  · intro hok
    rcases hG hok with ⟨h1, h2⟩ | ⟨h1, h2⟩
    · exact Or.inl ⟨h1, by omega⟩
    · rcases h2 with hm | hc
      · exact Or.inr ⟨h1, Or.inl hm⟩
      · exact Or.inr ⟨h1, Or.inr (by omega)⟩
  · intro hpos
    rw [hA, catPages_length]
    have hE2 := hE ((genLoop sz key responses st count cursor 0 fetches
      fuel).pageSizes.length - 1) (by omega)
    have hsb := sumLen_succ_back pg ((genLoop sz key responses st count cursor 0
      fetches fuel).pageSizes.length - 1) fetches
    have hk : (genLoop sz key responses st count cursor 0 fetches
        fuel).pageSizes.length - 1 + 1
        = (genLoop sz key responses st count cursor 0 fetches
        fuel).pageSizes.length := by omega
    rw [hk] at hsb
    omega

theorem videosFn_shape (responses : Nat → Option JVal) (st : UserState)
    (count : Int) (cursor : Int) (fetches : Nat) (fuel : Nat) :
    (videosFn responses st count cursor fetches fuel).pageSizes = []
    ∨ ∃ st1 f1, videosFn responses st count cursor fetches fuel
        = videosLoop responses st1 count (.vInt cursor) 0 f1 fuel := by
  by_cases hsec : needsHydration st.sec_uid = true
  · rcases hinf : info responses st fetches with ⟨st1, f1, res⟩
    cases res with
    | ok r => exact Or.inr ⟨st1, f1, by simp [videosFn, hsec, hinf]⟩
    | error e => exact Or.inl (by simp [videosFn, hsec, hinf])
  · exact Or.inr ⟨st, fetches, by simp [videosFn, hsec]⟩

theorem likedFn_shape (responses : Nat → Option JVal) (st : UserState)
    (count : Int) (cursor : Int) (fetches : Nat) (fuel : Nat) :
    (likedFn responses st count cursor fetches fuel).pageSizes = []
    ∨ ∃ st1 f1, likedFn responses st count cursor fetches fuel
        = likedLoop responses st1 count (.vInt cursor) 0 f1 fuel := by
  by_cases hsec : needsHydration st.sec_uid = true
  · rcases hinf : info responses st fetches with ⟨st1, f1, res⟩
    cases res with
    | ok r => exact Or.inr ⟨st1, f1, by simp [likedFn, hsec, hinf]⟩
    | error e => exact Or.inl (by simp [likedFn, hsec, hinf])
  · exact Or.inr ⟨st, fetches, by simp [likedFn, hsec]⟩

theorem playlistsFn_shape (responses : Nat → Option JVal) (st : UserState)
    (count : Int) (cursor : Int) (fetches : Nat) (fuel : Nat) :
    (playlistsFn responses st count cursor fetches fuel).pageSizes = []
    ∨ ∃ st1 f1, playlistsFn responses st count cursor fetches fuel
        = playlistsLoop responses st1 count (.vInt cursor) 0 f1 fuel := by
  by_cases hsec : needsHydration st.sec_uid = true
  · rcases hinf : info responses st fetches with ⟨st1, f1, res⟩
    cases res with
    | ok r => exact Or.inr ⟨st1, f1, by simp [playlistsFn, hsec, hinf]⟩
    | error e => exact Or.inl (by simp [playlistsFn, hsec, hinf])
  · exact Or.inr ⟨st, fetches, by simp [playlistsFn, hsec]⟩

/-- Claim C1: for every pagination call (`videos`, `liked`, `playlists`)
requesting `count` items (entity already hydrated), against well-formed
pages `pg`/`more`, the loop consumes and yields every fetched page in full
before re-checking the count — so the caller may receive up to one full
page beyond `count` (overshoot bound in `paginationSpec`) — and the
sequence stops as soon as the count is reached after a page or the server
signals no continuation, whichever comes first. -/
theorem pagination_yields_full_pages_and_stops
    (responses : Nat → Option JVal) (st : UserState) (count : Int)
    (cursor : Int) (fetches : Nat) (fuel : Nat)
    (pg : Nat → List JVal) (more : Nat → Bool)
    (hsec : needsHydration st.sec_uid = false) :
    ((∀ n, pageOf "itemList" (responses n) = some (pg n, more n)) →
      paginationSpec pg more count fetches
        (videosFn responses st count cursor fetches fuel)
      ∧ paginationSpec pg more count fetches
        (likedFn responses st count cursor fetches fuel))
    ∧ ((∀ n, pageOf "playList" (responses n) = some (pg n, more n)) →
      paginationSpec pg more count fetches
        (playlistsFn responses st count cursor fetches fuel)) := by
  constructor
  · intro hresp
    constructor
    · have h1 : videosFn responses st count cursor fetches fuel
          = videosLoop responses st count (.vInt cursor) 0 fetches fuel := by
        simp [videosFn, hsec]
      rw [h1, videosLoop_eq_genLoop]
      exact genLoop_paginationSpec 35 "itemList" responses st count pg more
        hresp fuel (.vInt cursor) fetches
    · have h1 : likedFn responses st count cursor fetches fuel
          = likedLoop responses st count (.vInt cursor) 0 fetches fuel := by
        simp [likedFn, hsec]
      rw [h1, likedLoop_eq_genLoop]
      exact genLoop_paginationSpec 35 "itemList" responses st count pg more
        hresp fuel (.vInt cursor) fetches
  · intro hresp
    have h1 : playlistsFn responses st count cursor fetches fuel
        = playlistsLoop responses st count (.vInt cursor) 0 fetches fuel := by
      simp [playlistsFn, hsec]
    rw [h1, playlistsLoop_eq_genLoop]
    exact genLoop_paginationSpec (min count 20) "playList" responses st count
      pg more hresp fuel (.vInt cursor) fetches

/-- Witness for C1 at a concrete one-page transport. -/
theorem pagination_yields_full_pages_and_stops_witness :
    paginationSpec (fun _ => [itemA]) (fun _ => false) 5 0
      (videosFn oracleLast stHyd 5 0 0 3) :=
  ((pagination_yields_full_pages_and_stops oracleLast stHyd 5 0 0 3
      (fun _ => [itemA]) (fun _ => false) rfl).1 (fun _ => rfl)).1

/-- Claim C2: for every pagination call, if the transport returns `None` at
any iteration `k` — after `k` well-formed continuing pages whose items kept
the running count below `count` — the sequence raises
`InvalidResponseError` immediately: the items yielded are exactly the `k`
earlier pages, the failing fetch contributes nothing, and no further fetch
is issued. -/
theorem pagination_transport_null_aborts
    (responses : Nat → Option JVal) (st : UserState) (count : Int)
    (cursor : Int) (fetches : Nat) (fuel : Nat) (k : Nat)
    (pg : Nat → List JVal) (more : Nat → Bool)
    (hsec : needsHydration st.sec_uid = false)
    (hm : ∀ j : Nat, j < k → more (fetches + j) = true)
    (hcnt : ∀ j : Nat, j ≤ k → (sumLen pg fetches j : Int) < count)
    (hnull : responses (fetches + k) = none)
    (hfu : k < fuel) :
    ((∀ j : Nat, j < k → pageOf "itemList" (responses (fetches + j))
        = some (pg (fetches + j), more (fetches + j))) →
      videosFn responses st count cursor fetches fuel
        = ⟨catPages pg fetches k, List.replicate (k + 1) 35, fetches + k + 1,
           .raised InvalidResponseError⟩
      ∧ likedFn responses st count cursor fetches fuel
        = ⟨catPages pg fetches k, List.replicate (k + 1) 35, fetches + k + 1,
           .raised InvalidResponseError⟩)
    ∧ ((∀ j : Nat, j < k → pageOf "playList" (responses (fetches + j))
        = some (pg (fetches + j), more (fetches + j))) →
      playlistsFn responses st count cursor fetches fuel
        = ⟨catPages pg fetches k, List.replicate (k + 1) (min count 20),
           fetches + k + 1, .raised InvalidResponseError⟩) := by
  have hcnt0 : ∀ j : Nat, j ≤ k →
      (0 : Int) + (sumLen pg fetches j : Int) < count := by
    intro j hj
    have := hcnt j hj
    omega
  constructor
  · intro hresp
    constructor
    · have h1 : videosFn responses st count cursor fetches fuel
          = videosLoop responses st count (.vInt cursor) 0 fetches fuel := by
        simp [videosFn, hsec]
      rw [h1, videosLoop_eq_genLoop]
      exact genLoop_null 35 "itemList" responses st count pg more k fuel
        (.vInt cursor) 0 fetches hfu hresp hm hcnt0 hnull
    · have h1 : likedFn responses st count cursor fetches fuel
          = likedLoop responses st count (.vInt cursor) 0 fetches fuel := by
        simp [likedFn, hsec]
      rw [h1, likedLoop_eq_genLoop]
      exact genLoop_null 35 "itemList" responses st count pg more k fuel
        (.vInt cursor) 0 fetches hfu hresp hm hcnt0 hnull
  · intro hresp
    have h1 : playlistsFn responses st count cursor fetches fuel
        = playlistsLoop responses st count (.vInt cursor) 0 fetches fuel := by
      simp [playlistsFn, hsec]
    rw [h1, playlistsLoop_eq_genLoop]
    exact genLoop_null (min count 20) "playList" responses st count pg more
      k fuel (.vInt cursor) 0 fetches hfu hresp hm hcnt0 hnull

/-- Witness for C2: one good page, then the transport returns `None`. -/
theorem pagination_transport_null_aborts_witness :
    videosFn oracleThenNull stHyd 5 0 0 3
      = ⟨catPages (fun _ => [itemA]) 0 1, List.replicate 2 35, 2,
         .raised InvalidResponseError⟩ :=
  ((pagination_transport_null_aborts oracleThenNull stHyd 5 0 0 3 1
      (fun _ => [itemA]) (fun _ => true) rfl
      (fun _ _ => rfl)
      (by intro j hj; interval_cases j <;> decide)
      rfl (by omega)).1
    (by
      intro j hj
      have hj0 : j = 0 := by omega
      subst hj0
      rfl)).1

/-- Claim C3 counterexample: requesting 1 video sends page size 35, not
`min(remaining, 35) = 1`; the page size sent is not the minimum of the
remaining requested count and the cap. -/
theorem page_size_not_min_of_remaining_cex :
    (videosFn oracleLast stHyd 1 0 0 3).pageSizes = [35]
    ∧ min (1 : Int) 35 ≠ 35 := by
  constructor
  · rfl
  · decide

/-- Claim C3 (amended): the page size sent on every fetch is the constant
35 for `videos` and `liked`, and `min(count, 20)` — computed from the
total requested count, never the remaining count — for `playlists`. -/
theorem page_size_fixed_per_endpoint
    (responses : Nat → Option JVal) (st : UserState) (count : Int)
    (cursor : Int) (fetches : Nat) (fuel : Nat) :
    ((videosFn responses st count cursor fetches fuel).pageSizes.all
        (fun x => x == 35) = true)
    ∧ ((likedFn responses st count cursor fetches fuel).pageSizes.all
        (fun x => x == 35) = true)
    ∧ ((playlistsFn responses st count cursor fetches fuel).pageSizes.all
        (fun x => x == min count 20) = true) := by
  refine ⟨?_, ?_, ?_⟩
  · rcases videosFn_shape responses st count cursor fetches fuel with h | ⟨st1, f1, h⟩
    · simp [h]
    · rw [h, videosLoop_eq_genLoop]
      exact genLoop_sizes 35 "itemList" responses st1 count fuel (.vInt cursor) 0 f1
  · rcases likedFn_shape responses st count cursor fetches fuel with h | ⟨st1, f1, h⟩
    · simp [h]
    · rw [h, likedLoop_eq_genLoop]
      exact genLoop_sizes 35 "itemList" responses st1 count fuel (.vInt cursor) 0 f1
  · rcases playlistsFn_shape responses st count cursor fetches fuel with h | ⟨st1, f1, h⟩
    · simp [h]
    · rw [h, playlistsLoop_eq_genLoop]
      exact genLoop_sizes (min count 20) "playList" responses st1 count fuel
        (.vInt cursor) 0 f1

/-- Claim C4: for every pagination call, a response whose `hasMore` is
falsy — in particular absent, since `resp.get("hasMore", False)` defaults
to `False` — stops the sequence immediately after that page's items are
yielded, even when fewer than `count` items were produced, and no further
fetch is issued (exactly one page size is recorded and the fetch counter
advances by one). -/
theorem has_more_false_or_absent_stops
    (responses : Nat → Option JVal) (st : UserState) (count : Int)
    (cursor : Int) (fetches : Nat) (fuel : Nat)
    (fs : List (String × JVal)) (xs ys : List JVal)
    (hsec : needsHydration st.sec_uid = false)
    (hrr : responses fetches = some (.vObj fs))
    (hvid : jLookup fs "itemList" = some (.vList xs))
    (hpl : jLookup fs "playList" = some (.vList ys))
    (hmore : (jGetD fs "hasMore" (.vBool false)).truthy = false)
    (hcount : 0 < count) :
    videosFn responses st count cursor fetches (fuel + 1)
      = ⟨xs, [35], fetches + 1, .ok⟩
    ∧ likedFn responses st count cursor fetches (fuel + 1)
      = ⟨xs, [35], fetches + 1, .ok⟩
    ∧ playlistsFn responses st count cursor fetches (fuel + 1)
      = ⟨ys, [min count 20], fetches + 1, .ok⟩ := by
  simp only [jGetD] at hmore
  refine ⟨?_, ?_, ?_⟩
  · have h1 : videosFn responses st count cursor fetches (fuel + 1)
        = videosLoop responses st count (.vInt cursor) 0 fetches (fuel + 1) := by
      simp [videosFn, hsec]
    rw [h1]
    simp [videosLoop, make_request, hrr, hcount, jGetD, hvid, jIter, hmore]
  · have h1 : likedFn responses st count cursor fetches (fuel + 1)
        = likedLoop responses st count (.vInt cursor) 0 fetches (fuel + 1) := by
      simp [likedFn, hsec]
    rw [h1]
    simp [likedLoop, make_request, hrr, hcount, jGetD, hvid, jIter, hmore]
  · have h1 : playlistsFn responses st count cursor fetches (fuel + 1)
        = playlistsLoop responses st count (.vInt cursor) 0 fetches (fuel + 1) := by
      simp [playlistsFn, hsec]
    rw [h1]
    simp [playlistsLoop, make_request, hrr, hcount, jGetD, hpl, jIter, hmore]

/-- Witness for C4: a page with one video, `hasMore` absent, count 10. -/
theorem has_more_false_or_absent_stops_witness :
    videosFn oracleStop stHyd 10 0 0 3 = ⟨[itemA], [35], 1, .ok⟩
    ∧ likedFn oracleStop stHyd 10 0 0 3 = ⟨[itemA], [35], 1, .ok⟩
    ∧ playlistsFn oracleStop stHyd 10 0 0 3 = ⟨[], [min 10 20], 1, .ok⟩ :=
  has_more_false_or_absent_stops oracleStop stHyd 10 0 0 2 fsStop [itemA] []
    rfl rfl rfl rfl rfl (by decide)

/-- Claim C5: calling `info` on an entity with neither `username` nor
`sec_uid` usable fails with the spec's `MissingIdentifierError` (the
`TypeError` in the source), raised synchronously: the state and the fetch
counter are returned unchanged, so no network request was issued. -/
theorem info_missing_identifier_synchronous
    (responses : Nat → Option JVal) (st : UserState) (fetches : Nat)
    (hu : st.username.truthy = false)
    (hs : st.sec_uid.truthy = false) :
    info responses st fetches = (st, fetches, .error MissingIdentifierError) := by
  simp [info, hu, hs, MissingIdentifierError]

/-- Witness for C5 at an entity with no identifiers. -/
theorem info_missing_identifier_synchronous_witness :
    info (fun _ => none) stEmpty 0 = (stEmpty, 0, .error MissingIdentifierError) :=
  info_missing_identifier_synchronous (fun _ => none) stEmpty 0 rfl rfl

/-- Claim C6 counterexample: an entity constructed with only a username,
hydrated from a payload whose `id`/`secUid`/`uniqueId` are explicit JSON
nulls: `info` returns successfully, yet all three identifiers are null —
the nullness is only logged, not raised. -/
theorem info_success_with_null_identifiers_cex :
    (info (fun _ => some nullIdPayload) stBob 0).2.2 = .ok nullIdPayload
    ∧ (info (fun _ => some nullIdPayload) stBob 0).1.username = .vNull
    ∧ (info (fun _ => some nullIdPayload) stBob 0).1.user_id = .vNull
    ∧ (info (fun _ => some nullIdPayload) stBob 0).1.sec_uid = .vNull :=
  ⟨rfl, rfl, rfl, rfl⟩

/-- Claim C6 (amended): a successful `info` call installs exactly the
extracted state; when the extraction's null-identifier check did not fire
(the logged flag is `false`), `username`, `user_id` and `sec_uid` are all
non-null.  (Success alone does not guarantee this: see the
counterexample, where nullness is logged but not raised.) -/
theorem info_success_nonnull_when_extraction_unlogged
    (responses : Nat → Option JVal) (st : UserState) (fetches : Nat)
    (r : JVal) (st2 : UserState)
    (hid : st.username.truthy = true ∨ st.sec_uid.truthy = true)
    (hr : responses fetches = some r)
    (hx : extract_from_data { st with as_dict := some r } = .ok (st2, false)) :
    info responses st fetches = (st2, fetches + 1, .ok r)
    ∧ st2.username ≠ .vNull ∧ st2.user_id ≠ .vNull ∧ st2.sec_uid ≠ .vNull := by
  have hcond : (!st.username.truthy && !st.sec_uid.truthy) = false := by
    rcases hid with h | h <;> simp [h]
  have hlog := extract_ok_logged _ _ _ hx
  have h3 : (st2.username.isNull || st2.user_id.isNull || st2.sec_uid.isNull)
      = false := hlog.symm
  refine ⟨by simp [info, hcond, make_request, hr, hx], ?_, ?_, ?_⟩
  · intro hnull
    rw [hnull] at h3
    simp [JVal.isNull] at h3
  · intro hnull
    rw [hnull] at h3
    simp [JVal.isNull] at h3
  · intro hnull
    rw [hnull] at h3
    simp [JVal.isNull] at h3

/-- Witness for C6 at a well-formed profile payload. -/
theorem info_success_nonnull_when_extraction_unlogged_witness :
    info (fun _ => some goodPayload) stBob 0
      = ({ user_id := .vStr "1", sec_uid := .vStr "s1", username := .vStr "bob",
           as_dict := some goodPayload }, 1, .ok goodPayload)
    ∧ ({ user_id := .vStr "1", sec_uid := .vStr "s1", username := .vStr "bob",
         as_dict := some goodPayload } : UserState).username ≠ .vNull
    ∧ ({ user_id := .vStr "1", sec_uid := .vStr "s1", username := .vStr "bob",
         as_dict := some goodPayload } : UserState).user_id ≠ .vNull
    ∧ ({ user_id := .vStr "1", sec_uid := .vStr "s1", username := .vStr "bob",
         as_dict := some goodPayload } : UserState).sec_uid ≠ .vNull :=
  info_success_nonnull_when_extraction_unlogged (fun _ => some goodPayload)
    stBob 0 goodPayload _ (Or.inl rfl) rfl rfl

/-- Claim C7 counterexample: a raw payload lacking the required fields —
the empty dict, which has no `userInfo` and no `id` — makes extraction
fail with `KeyError("id")`, not with `InvalidResponseError`. -/
theorem missing_required_fields_raise_key_error_cex :
    extract_from_data emptyDictState = .error (.keyError "id")
    ∧ PyError.keyError "id" ≠ InvalidResponseError :=
  ⟨rfl, by decide⟩

/-- Claim C7 (amended): extraction failures fall in two classes.  When a
`userInfo` object is present, an absent, structurally empty, or falsy
nested `user` — and a non-empty `user` lacking `"id"` — fail with
`InvalidResponseError`.  But a payload without `userInfo` that lacks `"id"`
fails with `KeyError("id")`, and a `user` object that has `"id"` but lacks
`"secUid"` fails with `KeyError("secUid")`, not `InvalidResponseError`. -/
theorem profile_extraction_failure_classes (st : UserState) :
    (∀ (fields uiFields : List (String × JVal)),
      jLookup fields "userInfo" = some (.vObj uiFields) →
      (jGetD uiFields "user" (.vObj [])).truthy = false →
      extract_from_data { st with as_dict := some (.vObj fields) }
        = .error InvalidResponseError)
    ∧ (∀ (fields uiFields hs2 : List (String × JVal)),
      jLookup fields "userInfo" = some (.vObj uiFields) →
      jGetD uiFields "user" (.vObj []) = .vObj hs2 →
      hs2.isEmpty = false →
      jLookup hs2 "id" = none →
      extract_from_data { st with as_dict := some (.vObj fields) }
        = .error InvalidResponseError)
    ∧ (∀ (fields : List (String × JVal)),
      jLookup fields "userInfo" = none →
      jLookup fields "id" = none →
      extract_from_data { st with as_dict := some (.vObj fields) }
        = .error (.keyError "id"))
    ∧ (∀ (fields uiFields hs2 : List (String × JVal)) (i : JVal),
      jLookup fields "userInfo" = some (.vObj uiFields) →
      jGetD uiFields "user" (.vObj []) = .vObj hs2 →
      jLookup hs2 "id" = some i →
      jLookup hs2 "secUid" = none →
      extract_from_data { st with as_dict := some (.vObj fields) }
        = .error (.keyError "secUid")) := by
  refine ⟨?_, ?_, ?_, ?_⟩
  · intro fields uiFields hui hfalsy
    simp [extract_from_data, extract_step, hui, hfalsy, InvalidResponseError]
  · intro fields uiFields hs2 hui huser hne hid
    have htr : (jGetD uiFields "user" (.vObj [])).truthy = true := by
      rw [huser]
      simp [JVal.truthy, hne]
    simp [extract_from_data, extract_step, hui, htr, huser, pyContains, hid,
      InvalidResponseError]
  · intro fields hui hid
    simp [extract_from_data, extract_step, hui, pyGetItem, hid]
  · intro fields uiFields hs2 i hui huser hid hsec2
    have htr : (jGetD uiFields "user" (.vObj [])).truthy = true := by
      rw [huser]
      cases hs2 with
      | nil => simp [jLookup] at hid
      | cons p rest => simp [JVal.truthy]
    rw [huser] at htr
    simp [extract_from_data, extract_step, hui, htr, huser, pyContains, hid,
      pyGetItem, hsec2]

/-- Witness for C7 at a payload whose nested user object is empty. -/
theorem profile_extraction_failure_classes_witness :
    extract_from_data { stEmpty with as_dict := some emptyUserPayload }
      = .error InvalidResponseError :=
  (profile_extraction_failure_classes stEmpty).1
    [("userInfo", .vObj [("user", .vObj [])])] [("user", .vObj [])] rfl rfl

/-- Claim C8: `videos_page` with `count = 30` on a hydrated entity issues
exactly one fetch (the fetch counter advances by exactly one) and returns
the `{"videos", "cursor", "hasMore"}` dictionary built from that single
response, whatever the page contains — it never auto-continues; and, with
the implicit hydration fetch when `sec_uid` is unset, the counter never
advances by more than two on any input. -/
theorem videos_page_single_fetch_shape
    (responses : Nat → Option JVal) (st : UserState) (cursor : Int)
    (fetches : Nat) (fs : List (String × JVal)) (xs : List JVal)
    (hsec : needsHydration st.sec_uid = false)
    (hrr : responses fetches = some (.vObj fs))
    (hil : jGetD fs "itemList" (.vList []) = .vList xs) :
    videos_page responses st 30 cursor fetches
      = (st, fetches + 1,
         .ok (.vObj [("videos", .vList xs),
                     ("cursor", jGetD fs "cursor" .vNull),
                     ("hasMore", jGetD fs "hasMore" (.vBool false))]))
    ∧ (∀ (responses2 : Nat → Option JVal) (st2 : UserState) (cursor2 : Int)
        (fetches2 : Nat),
        (videos_page responses2 st2 30 cursor2 fetches2).2.1 ≤ fetches2 + 2) := by
  constructor
  · simp [videos_page, hsec, make_request, hrr, hil, jIter]
  · intro responses2 st2 cursor2 fetches2
    exact videos_page_fetches_le responses2 st2 30 cursor2 fetches2

/-- Witness for C8 at a one-item page with `cursor`/`hasMore` absent. -/
theorem videos_page_single_fetch_shape_witness :
    videos_page oracleLast stHyd 30 0 0
      = (stHyd, 1,
         .ok (.vObj [("videos", .vList [itemA]),
                     ("cursor", jGetD [("itemList", .vList [itemA]),
                        ("playList", .vList [itemA])] "cursor" .vNull),
                     ("hasMore", jGetD [("itemList", .vList [itemA]),
                        ("playList", .vList [itemA])] "hasMore" (.vBool false))])) :=
  (videos_page_single_fetch_shape oracleLast stHyd 0 0
    [("itemList", .vList [itemA]), ("playList", .vList [itemA])] [itemA]
    rfl rfl rfl).1

/-- Claim C9: the pagination loops are not guaranteed to terminate.  When
every response is a continuing page with an empty or absent item list, no
item is ever yielded and the loop issues one fetch per unit of fuel — i.e.
unboundedly many (`fetches + fuel`, result `fuelOut` for every fuel).
Conversely, the loop does terminate (never runs out of fuel) as soon as
some reachable response within the fuel bound is not a continuing page. -/
theorem pagination_loops_can_run_forever :
    (∀ (responses : Nat → Option JVal) (st : UserState) (count : Int)
       (cursor : Int) (fetches fuel : Nat),
      needsHydration st.sec_uid = false →
      (∀ n, badPage "itemList" (responses n)) →
      0 < count →
      videosFn responses st count cursor fetches fuel
          = ⟨[], List.replicate fuel 35, fetches + fuel, .fuelOut⟩
        ∧ likedFn responses st count cursor fetches fuel
          = ⟨[], List.replicate fuel 35, fetches + fuel, .fuelOut⟩)
    ∧ (∀ (responses : Nat → Option JVal) (st : UserState) (count : Int)
       (cursor : Int) (fetches fuel : Nat),
      needsHydration st.sec_uid = false →
      (∀ n, badPage "playList" (responses n)) →
      0 < count →
      playlistsFn responses st count cursor fetches fuel
        = ⟨[], List.replicate fuel (min count 20), fetches + fuel, .fuelOut⟩)
    ∧ (∀ (responses : Nat → Option JVal) (st : UserState) (count : Int)
       (cursor : Int) (fetches fuel k : Nat),
      needsHydration st.sec_uid = false →
      k < fuel →
      contResp "itemList" (responses (fetches + k)) = false →
      (videosFn responses st count cursor fetches fuel).result ≠ .fuelOut
        ∧ (likedFn responses st count cursor fetches fuel).result ≠ .fuelOut)
    ∧ (∀ (responses : Nat → Option JVal) (st : UserState) (count : Int)
       (cursor : Int) (fetches fuel k : Nat),
      needsHydration st.sec_uid = false →
      k < fuel →
      contResp "playList" (responses (fetches + k)) = false →
      (playlistsFn responses st count cursor fetches fuel).result ≠ .fuelOut) := by
  refine ⟨?_, ?_, ?_, ?_⟩
  · intro responses st count cursor fetches fuel hsec hbad hcount
    constructor
    · have h1 : videosFn responses st count cursor fetches fuel
          = videosLoop responses st count (.vInt cursor) 0 fetches fuel := by
        simp [videosFn, hsec]
      rw [h1, videosLoop_eq_genLoop]
      exact genLoop_diverge 35 "itemList" responses st count hbad fuel
        (.vInt cursor) 0 fetches hcount
    · have h1 : likedFn responses st count cursor fetches fuel
          = likedLoop responses st count (.vInt cursor) 0 fetches fuel := by
        simp [likedFn, hsec]
      rw [h1, likedLoop_eq_genLoop]
      exact genLoop_diverge 35 "itemList" responses st count hbad fuel
        (.vInt cursor) 0 fetches hcount
  · intro responses st count cursor fetches fuel hsec hbad hcount
    have h1 : playlistsFn responses st count cursor fetches fuel
        = playlistsLoop responses st count (.vInt cursor) 0 fetches fuel := by
      simp [playlistsFn, hsec]
    rw [h1, playlistsLoop_eq_genLoop]
    exact genLoop_diverge (min count 20) "playList" responses st count hbad fuel
      (.vInt cursor) 0 fetches hcount
  · intro responses st count cursor fetches fuel k hsec hk hc
    constructor
    · have h1 : videosFn responses st count cursor fetches fuel
          = videosLoop responses st count (.vInt cursor) 0 fetches fuel := by
        simp [videosFn, hsec]
      rw [h1, videosLoop_eq_genLoop]
      exact genLoop_stops 35 "itemList" responses st count fuel k
        (.vInt cursor) 0 fetches hk hc
    · have h1 : likedFn responses st count cursor fetches fuel
          = likedLoop responses st count (.vInt cursor) 0 fetches fuel := by
        simp [likedFn, hsec]
      rw [h1, likedLoop_eq_genLoop]
      exact genLoop_stops 35 "itemList" responses st count fuel k
        (.vInt cursor) 0 fetches hk hc
  · intro responses st count cursor fetches fuel k hsec hk hc
    have h1 : playlistsFn responses st count cursor fetches fuel
        = playlistsLoop responses st count (.vInt cursor) 0 fetches fuel := by
      simp [playlistsFn, hsec]
    rw [h1, playlistsLoop_eq_genLoop]
    exact genLoop_stops (min count 20) "playList" responses st count fuel k
      (.vInt cursor) 0 fetches hk hc

/-- Witness for C9: the empty continuing page spins for any fuel. -/
theorem pagination_loops_can_run_forever_witness :
    videosFn oracleSpin stHyd 5 0 0 4
        = ⟨[], List.replicate 4 35, 4, .fuelOut⟩
      ∧ likedFn oracleSpin stHyd 5 0 0 4
        = ⟨[], List.replicate 4 35, 4, .fuelOut⟩ :=
  pagination_loops_can_run_forever.1 oracleSpin stHyd 5 0 0 4 rfl
    (fun _ => ⟨[("hasMore", .vBool true)], rfl, Or.inl rfl, rfl⟩) (by decide)

/-- Claim C10: hydration is not atomic on error — when the transport
response is non-null but its extraction raises `InvalidResponseError`,
`info` has already overwritten `as_dict` with the invalid response before
raising, so whenever the response differs from the previous `as_dict` the
state observed after the failure differs from the state before the call. -/
theorem info_overwrites_as_dict_before_raising
    (responses : Nat → Option JVal) (st : UserState) (fetches : Nat) (r : JVal)
    (hid : st.username.truthy = true ∨ st.sec_uid.truthy = true)
    (hr : responses fetches = some r)
    (hx : extract_from_data { st with as_dict := some r }
      = .error InvalidResponseError) :
    info responses st fetches
      = ({ st with as_dict := some r }, fetches + 1, .error InvalidResponseError)
    ∧ (st.as_dict ≠ some r → { st with as_dict := some r } ≠ st) := by
  have hcond : (!st.username.truthy && !st.sec_uid.truthy) = false := by
    rcases hid with h | h <;> simp [h]
  constructor
  · simp [info, hcond, make_request, hr, hx]
  · intro hne heq
    exact hne (congrArg UserState.as_dict heq).symm

/-- Witness for C10: hydrating an entity whose `as_dict` was unset from a
payload with an empty nested user overwrites `as_dict` and then raises. -/
theorem info_overwrites_as_dict_before_raising_witness :
    info (fun _ => some emptyUserPayload) stHyd 0
      = ({ stHyd with as_dict := some emptyUserPayload }, 1,
         .error InvalidResponseError)
    ∧ (stHyd.as_dict ≠ some emptyUserPayload →
        { stHyd with as_dict := some emptyUserPayload } ≠ stHyd) :=
  info_overwrites_as_dict_before_raising (fun _ => some emptyUserPayload)
    stHyd 0 emptyUserPayload (Or.inl rfl) rfl rfl
